import Mathlib

/- Verification of the canteen ordering core: a shallow embedding of the
order / payment / wallet logic of the repository (Django application) into
Lean. Monetary amounts (Django DecimalField values) are modelled as exact
rationals; decimal literals of the source such as 0.01 are modelled as the
rationals they denote. Status and method enumerations are the string
literals the source uses. Wall-clock time is an explicit natural-number
parameter wherever the source reads timezone.now(). Side effects on rows
of other tables that no claim mentions (Notification rows, OrderHistory
rows, prepared_by bookkeeping) are not part of the embedded state; the
embedding of each function notes what it covers. -/

namespace Canteen

/-- Embeds apps/menu/models.py MenuItem: the fields the order core reads
(price, special-offer fields, availability, stock). -/
structure MenuItem where
  name : String
  price : Rat
  special_price : Option Rat
  is_special : Bool
  special_until : Option Nat
  is_available : Bool
  current_stock : Nat
deriving DecidableEq

/-- MenuItem.is_special_active: false when is_special is unset or
special_until is null, otherwise now <= special_until. -/
def MenuItem.is_special_active (m : MenuItem) (now : Nat) : Bool :=
  match m.special_until with
  | none => false
  | some t => m.is_special && decide (now ≤ t)

/-- MenuItem.get_display_price: special price if the offer is active,
otherwise the regular price. The source returns
`self.special_price or self.price`, so a null or zero special price falls
back to the regular price (Python falsiness). -/
def MenuItem.get_display_price (m : MenuItem) (now : Nat) : Rat :=
  if m.is_special_active now then
    match m.special_price with
    | some sp => if sp = 0 then m.price else sp
    | none => m.price
  else m.price

/-- MenuItem.update_stock: decrement current_stock by quantity_used when
current_stock >= quantity_used and report success, else leave the row
unchanged and report failure. -/
def MenuItem.update_stock (m : MenuItem) (quantity_used : Nat) : MenuItem × Bool :=
  if quantity_used ≤ m.current_stock then
    ({ m with current_stock := m.current_stock - quantity_used }, true)
  else (m, false)

/-- MenuItem.restock: unconditional stock increment. -/
def MenuItem.restock (m : MenuItem) (quantity : Nat) : MenuItem :=
  { m with current_stock := m.current_stock + quantity }

/-- Embeds apps/authentication/models.py User: the wallet balance, the only
User state the payment core mutates. -/
structure User where
  wallet_balance : Rat
deriving DecidableEq

/-- User.has_sufficient_balance: wallet_balance >= amount. -/
def User.has_sufficient_balance (u : User) (amount : Rat) : Bool :=
  decide (amount ≤ u.wallet_balance)

/-- User.add_to_wallet: unconditional credit of the cached balance. -/
def User.add_to_wallet (u : User) (amount : Rat) : User :=
  { u with wallet_balance := u.wallet_balance + amount }

/-- User.deduct_from_wallet: debit the cached balance when
wallet_balance >= amount and return True, else leave it unchanged and
return False. -/
def User.deduct_from_wallet (u : User) (amount : Rat) : User × Bool :=
  if amount ≤ u.wallet_balance then
    ({ u with wallet_balance := u.wallet_balance - amount }, true)
  else (u, false)

/-- Embeds apps/orders/models.py OrderItem: quantity, the unit-price
snapshot and the stored line total. -/
structure OrderItem where
  quantity : Nat
  unit_price : Rat
  total_price : Rat
deriving DecidableEq

/-- Embeds apps/orders/models.py Order: status, the derived money fields
and the per-transition timestamps. The Order model has no service-fee
column; its money fields are exactly these. -/
structure Order where
  status : String
  subtotal : Rat
  tax_amount : Rat
  discount_amount : Rat
  total_amount : Rat
  confirmed_at : Option Nat
  prepared_at : Option Nat
  ready_at : Option Nat
  completed_at : Option Nat
  cancelled_at : Option Nat
  actual_prep_time : Option Nat
deriving DecidableEq

/-- Order.calculate_totals: subtotal is the aggregate of
quantity * unit_price over the order's live items (`or 0` on an empty
aggregate), tax_amount is forced to 0 (`No tax in this implementation`),
and total_amount is subtotal - discount_amount. -/
def Order.calculate_totals (o : Order) (items : List OrderItem) : Order :=
  let items_total := items.foldl (fun acc it => acc + (it.quantity : Rat) * it.unit_price) 0
  { o with
    subtotal := items_total
    tax_amount := 0
    total_amount := items_total - o.discount_amount }

/-- OrderItem.save: when unit_price is falsy (unset or zero — the source
guard is `if not self.unit_price`) it is re-read from the live menu item's
get_display_price; total_price is then recomputed as
quantity * unit_price. An unset price is modelled as 0, matching Python
falsiness. The subsequent order.calculate_totals() call of the source is
composed explicitly where a claim needs it. -/
def OrderItem.save (it : OrderItem) (live_display_price : Rat) : OrderItem :=
  let up := if it.unit_price = 0 then live_display_price else it.unit_price
  { it with unit_price := up, total_price := (it.quantity : Rat) * up }

/-- Order.update_status: sets status to new_status unconditionally, then
stamps the timestamp matching the recognized (old, new) pair; the
`ready` arm also derives actual_prep_time in whole minutes from
prepared_at. The prepared_by assignment and the notification row the
source creates afterwards touch no embedded state. -/
def Order.update_status (o : Order) (new_status : String) (now : Nat) : Order :=
  let old_status := o.status
  let o1 := { o with status := new_status }
  if new_status = "confirmed" ∧ old_status = "pending" then
    { o1 with confirmed_at := some now }
  else if new_status = "preparing" ∧ old_status = "confirmed" then
    { o1 with prepared_at := some now }
  else if new_status = "ready" ∧ old_status = "preparing" then
    match o1.prepared_at with
    | some t => { o1 with ready_at := some now, actual_prep_time := some ((now - t) / 60) }
    | none => { o1 with ready_at := some now }
  else if new_status = "completed" ∧ old_status = "ready" then
    { o1 with completed_at := some now }
  else if new_status = "cancelled" then
    { o1 with cancelled_at := some now }
  else o1

/-- Modelled from the spec (reference for the state-machine claim): the
transition table of spec section 4.3. A (from, to) pair is allowed exactly
when the table lists it. -/
def specAllowedTransition (f t : String) : Bool :=
  (f == "pending" && (t == "validated" || t == "cancelled")) ||
  (f == "validated" && (t == "paid" || t == "confirmed" || t == "cancelled")) ||
  (f == "confirmed" && (t == "preparing" || t == "cancelled")) ||
  (f == "preparing" && (t == "ready" || t == "cancelled")) ||
  (f == "ready" && t == "completed") ||
  (f == "paid" && (t == "completed" || t == "cancelled"))

/-- Embeds apps/payments/models.py Payment: method, kind, amount, status,
fee fields, retry bookkeeping and the timestamps the mark_as operations
touch. The kind column is transaction_type, as the model declares it; the
views in apps/payments/views.py instead read and write a payment_type
attribute that does not exist, so every such statement raises at runtime —
each embedded view notes where that happens. -/
structure Payment where
  payment_method : String
  transaction_type : String
  amount : Rat
  status : String
  transaction_id : String
  transaction_fee : Rat
  net_amount : Rat
  retry_count : Nat
  failure_reason : String
  processed_at : Option Nat
  completed_at : Option Nat
deriving DecidableEq

/-- A fresh Payment row as Payment.objects.create builds it: status
defaults to pending, fees and retry count to zero. -/
def mkPayment (method ttype : String) (amount : Rat) : Payment :=
  { payment_method := method
    transaction_type := ttype
    amount := amount
    status := "pending"
    transaction_id := ""
    transaction_fee := 0
    net_amount := 0
    retry_count := 0
    failure_reason := ""
    processed_at := none
    completed_at := none }

/-- Payment.mark_as_processing. -/
def Payment.mark_as_processing (p : Payment) (now : Nat) : Payment :=
  { p with status := "processing", processed_at := some now }

/-- Payment.mark_as_completed: stamps completed_at and stores the provider
transaction id when one is passed. -/
def Payment.mark_as_completed (p : Payment) (now : Nat) (tid : Option String := none) : Payment :=
  let p1 := { p with status := "completed", completed_at := some now }
  match tid with
  | some t => { p1 with transaction_id := t }
  | none => p1

/-- Payment.mark_as_failed: increments retry_count and records the reason
when one is passed. -/
def Payment.mark_as_failed (p : Payment) (reason : Option String) : Payment :=
  { p with
    status := "failed"
    retry_count := p.retry_count + 1
    failure_reason := match reason with | some r => r | none => p.failure_reason }

/-- Payment.calculate_net_amount: provider-specific fee
(MTN 1 percent within 100..500, Orange 0.5 percent within 50..300, zero
for every other method), stored in transaction_fee; net_amount is
amount - fee and is also returned. The source's decimal literals 0.01 and
0.005 are the rationals 1/100 and 5/1000. -/
def Payment.calculate_net_amount (p : Payment) : Payment × Rat :=
  let fee : Rat :=
    if p.payment_method = "mtn_momo" then max 100 (min 500 (p.amount * (1 / 100)))
    else if p.payment_method = "orange_money" then max 50 (min 300 (p.amount * (5 / 1000)))
    else 0
  let p1 := { p with transaction_fee := fee, net_amount := p.amount - fee }
  (p1, p1.net_amount)

/-- Embeds apps/payments/models.py WalletTransaction: type, source, amount
and the non-nullable before/after balance snapshots. -/
structure WalletTx where
  transaction_type : String
  source : String
  amount : Rat
  balance_before : Rat
  balance_after : Rat
deriving DecidableEq

/-- The signed balance delta a ledger row represents: +amount for a
credit, -amount for a debit. -/
def WalletTx.delta (t : WalletTx) : Rat :=
  if t.transaction_type = "credit" then t.amount else -t.amount

/-- Running sum of the deltas of a user's WalletTransaction rows. -/
def ledgerSum (txs : List WalletTx) : Rat :=
  txs.foldl (fun acc t => acc + t.delta) 0

/-- The reconciliation invariant of the spec: the cached wallet balance
equals the running sum of the user's WalletTransaction deltas. -/
def reconciled (u : User) (txs : List WalletTx) : Prop :=
  u.wallet_balance = ledgerSum txs

instance (u : User) (txs : List WalletTx) : Decidable (reconciled u txs) := by
  unfold reconciled; infer_instance

/-- Per-row consistency the spec states for every WalletTransaction:
balance_after is balance_before plus the amount for a credit and
balance_before minus the amount for a debit. -/
def rowConsistent (tx : WalletTx) : Prop :=
  (tx.transaction_type = "credit" → tx.balance_after = tx.balance_before + tx.amount) ∧
  (tx.transaction_type = "debit" → tx.balance_after = tx.balance_before - tx.amount)

/-- Result of the synchronous wallet payment branch. -/
structure WalletPayResult where
  payment : Payment
  user : User
  txs : List WalletTx
  success : Bool
  message : String
deriving DecidableEq

/-- Embeds apps/payments/views.py process_wallet_payment: reject and mark
the payment failed when the balance is insufficient; otherwise deduct the
wallet, mark the payment completed and append one debit WalletTransaction
carrying the before/after balance snapshots. -/
def process_wallet_payment (p : Payment) (u : User) (txs : List WalletTx) (now : Nat) :
    WalletPayResult :=
  let amount := p.amount
  if !(u.has_sufficient_balance amount) then
    { payment := p.mark_as_failed (some "Insufficient wallet balance")
      user := u, txs := txs, success := false
      message := "Insufficient wallet balance" }
  else
    let old_balance := u.wallet_balance
    let r := u.deduct_from_wallet amount
    if r.2 then
      let tx : WalletTx :=
        { transaction_type := "debit", source := "order_payment", amount := amount
          balance_before := old_balance, balance_after := r.1.wallet_balance }
      { payment := p.mark_as_completed now
        user := r.1, txs := txs ++ [tx], success := true
        message := "Payment completed successfully" }
    else
      { payment := p.mark_as_failed (some "Failed to deduct from wallet")
        user := u, txs := txs, success := false
        message := "Payment failed" }

/-- Embeds apps/payments/views.py complete_wallet_topup: credit the wallet
by the payment amount and append one credit WalletTransaction with the
before/after snapshots. The Notification.objects.create(user=...) call
that follows raises — the Notification model declares target_user but no
user field — but only after the balance save and the ledger row are
already committed (the callers hold no atomic block), so the wallet
effect modelled here stands and the exception propagates to the caller. -/
def complete_wallet_topup (p : Payment) (u : User) (txs : List WalletTx) :
    User × List WalletTx :=
  let old_balance := u.wallet_balance
  let u2 := u.add_to_wallet p.amount
  let tx : WalletTx :=
    { transaction_type := "credit", source := "topup", amount := p.amount
      balance_before := old_balance, balance_after := u2.wallet_balance }
  (u2, txs ++ [tx])

/-- State threaded through a webhook reconciliation step. -/
structure WebhookResult where
  payment : Payment
  user : User
  txs : List WalletTx
deriving DecidableEq

/-- Embeds apps/payments/views.py mtn_webhook: after parsing the body, the
handler's first statement is PaymentWebhook.objects.create(provider=,
event_type=, data=); event_type and data are not PaymentWebhook fields
(the model declares payment, provider, webhook_data, processed) and the
required payment foreign key is not supplied, so the call raises
TypeError, the handler's broad except answers 500, and the Payment lookup
is never reached: every delivery — first or duplicate — leaves the
Payment, the wallet and the ledger unchanged. Were the logging fixed, the
SUCCESSFUL branch would still raise reading payment.payment_type (the
model column is transaction_type) before completing anything.
orange_webhook has the identical structure and the identical defect. -/
def mtn_webhook (p : Payment) (status : String) (u : User) (txs : List WalletTx) :
    WebhookResult × Nat :=
  ({ payment := p, user := u, txs := txs }, 500)

/-- Outcome of a polling verification step: the payment and wallet state
afterwards and the status string answered to the caller. -/
structure VerifyResult where
  payment : Payment
  user : User
  txs : List WalletTx
  answer : String
deriving DecidableEq

/-- Embeds apps/payments/views.py verify_mtn_payment (the provider
response abstracted to its status string): on SUCCESSFUL the branch first
reads payment.payment_type, an attribute the Payment model does not
declare (the column is transaction_type), and the AttributeError is
caught by the broad except, which answers processing — neither
complete_wallet_topup nor mark_as_completed is ever reached, so the
wallet and the ledger stay untouched. On FAILED, mark_as_failed runs
normally. Any other provider status, or a provider error, answers
processing. -/
def verify_mtn_payment (p : Payment) (provider_status : String) (u : User)
    (txs : List WalletTx) : VerifyResult :=
  if provider_status = "SUCCESSFUL" then
    { payment := p, user := u, txs := txs, answer := "processing" }
  else if provider_status = "FAILED" then
    { payment := p.mark_as_failed (some "Payment failed by provider"), user := u, txs := txs
      answer := "failed" }
  else
    { payment := p, user := u, txs := txs, answer := "processing" }

/-- Embeds apps/payments/views.py verify_orange_payment: same shape as the
MTN verification — the SUCCESS branch dies on the same payment.payment_type
read and answers processing, FAILED and EXPIRED mark the payment failed. -/
def verify_orange_payment (p : Payment) (provider_status : String) (u : User)
    (txs : List WalletTx) : VerifyResult :=
  if provider_status = "SUCCESS" then
    { payment := p, user := u, txs := txs, answer := "processing" }
  else if provider_status = "FAILED" ∨ provider_status = "EXPIRED" then
    { payment := p.mark_as_failed (some "Payment failed by provider"), user := u, txs := txs
      answer := "failed" }
  else
    { payment := p, user := u, txs := txs, answer := "processing" }

/-- Embeds apps/payments/views.py payment_verification, the polling entry
point of reconciliation: a payment already completed or failed is answered
directly and not touched; only a processing payment is verified against
its provider; anything else is answered pending. -/
def payment_verification (p : Payment) (provider_status : String) (u : User)
    (txs : List WalletTx) : VerifyResult :=
  if p.status = "completed" then
    { payment := p, user := u, txs := txs, answer := "completed" }
  else if p.status = "failed" then
    { payment := p, user := u, txs := txs, answer := "failed" }
  else if p.status = "processing" then
    if p.payment_method = "mtn_momo" then verify_mtn_payment p provider_status u txs
    else if p.payment_method = "orange_money" then verify_orange_payment p provider_status u txs
    else { payment := p, user := u, txs := txs, answer := "processing" }
  else
    { payment := p, user := u, txs := txs, answer := "pending" }

/-- Result of the simulated top-up view. -/
structure TopupResult where
  user : User
  txs : List WalletTx
  error : Option String
deriving DecidableEq

/-- Embeds apps/orders/views.py process_topup (duplicated verbatim in
apps/payments/views.py, where it shadows the mobile-money top-up view): a
non-positive amount raises ValueError; a positive amount reaches
WalletTransaction.objects.create(employee=...), which raises TypeError —
employee is not a WalletTransaction field, and the non-nullable
balance_before/balance_after columns are not supplied either. The
handler's broad except reports both exceptions as an invalid amount, so
for every input no row is written and the balance never changes. -/
def orders_process_topup (amount : Rat) (u : User) (txs : List WalletTx) : TopupResult :=
  if amount ≤ 0 then
    { user := u, txs := txs, error := some "Invalid amount: Amount must be positive" }
  else
    { user := u, txs := txs
      error := some "Invalid amount: employee is an invalid keyword argument for WalletTransaction" }

/-- Database state seen by payment initiation: the target order, the
paying user, the Payment rows already attached to that order, and the
user's wallet ledger. -/
structure PPState where
  order : Order
  user : User
  payments : List Payment
  txs : List WalletTx
deriving DecidableEq

/-- Result of payment initiation. -/
structure PPResult where
  st : PPState
  ok : Bool
  error : Option String
deriving DecidableEq

/-- Embeds Order.create_status_notification: for the five statuses of its
message table it calls Notification.objects.create with a user keyword;
the Notification model declares target_user but no user field, so the
call raises TypeError; for any other status no create is attempted and
nothing happens. -/
def create_status_notification (new_status : String) : Except String Unit :=
  if new_status = "confirmed" ∨ new_status = "preparing" ∨ new_status = "ready"
      ∨ new_status = "completed" ∨ new_status = "cancelled" then
    Except.error "TypeError: user is an invalid keyword argument for Notification"
  else Except.ok ()

/-- Embeds apps/payments/views.py process_payment: reject unless the order
status is exactly `pending`; reject when a Payment for this order already
has status pending or completed (the filter the source uses — processing
is not in it); otherwise create a Payment row for order.total_amount
inside transaction.atomic() and dispatch by method. After a successful
dispatch the handler calls order.update_status('confirmed', ...) inside
the same atomic block; the status save succeeds but
create_status_notification then raises (Notification has no user field),
the TypeError propagates out of the block, every write of the request —
the Payment row, the wallet debit and its ledger row, the status save —
is rolled back, and the outer except answers 500 'Payment processing
failed'. A dispatch failure returns an error response without raising, so
the atomic block commits and the failed Payment row persists (a plain
return does not roll the block back); the same holds for an unknown
method, whose pending Payment row persists. providerAccepts stands for
the provider answering 202/201 on the mobile-money request. -/
def process_payment (st : PPState) (method : String) (providerAccepts : Bool) (now : Nat) :
    PPResult :=
  if st.order.status ≠ "pending" then
    { st := st, ok := false, error := some "Order cannot be paid" }
  else if st.payments.any (fun p => p.status == "pending" || p.status == "completed") then
    { st := st, ok := false, error := some "Payment already processed" }
  else
    let payment := mkPayment method "order_payment" st.order.total_amount
    if method = "wallet" then
      let r := process_wallet_payment payment st.user st.txs now
      if r.success then
        match create_status_notification "confirmed" with
        | Except.error _ =>
          { st := st, ok := false, error := some "Payment processing failed" }
        | Except.ok _ =>
          { st := { order := st.order.update_status "confirmed" now, user := r.user
                    payments := st.payments ++ [r.payment], txs := r.txs }
            ok := true, error := none }
      else
        { st := { st with payments := st.payments ++ [r.payment], user := r.user, txs := r.txs }
          ok := false, error := some r.message }
    else if method = "mtn_momo" ∨ method = "orange_money" then
      let p1 := payment.mark_as_processing now
      if providerAccepts then
        match create_status_notification "confirmed" with
        | Except.error _ =>
          { st := st, ok := false, error := some "Payment processing failed" }
        | Except.ok _ =>
          { st := { st with
                    order := st.order.update_status "confirmed" now
                    payments := st.payments ++ [p1] }
            ok := true, error := none }
      else
        { st := { st with payments := st.payments ++ [p1.mark_as_failed (some "provider error")] }
          ok := false, error := some "Failed to initiate payment" }
    else
      { st := { st with payments := st.payments ++ [payment] }
        ok := false, error := some "Invalid payment method" }

/-- The server error with which place_order dies. -/
def place_order_crash : String :=
  "AttributeError: type object Order has no attribute STATUS_PENDING"

/-- Result of order placement: the persisted order with its items (none
when nothing was persisted), the menu rows afterwards, and the error
reported, if any. -/
structure PlaceOrderResult where
  order : Option (Order × List OrderItem)
  menu : List (Nat × MenuItem)
  error : Option String
deriving DecidableEq

/-- A fresh Order skeleton in pending status, money fields at their
defaults. -/
def pendingOrder : Order :=
  { status := "pending"
    subtotal := 0, tax_amount := 0, discount_amount := 0, total_amount := 0
    confirmed_at := none, prepared_at := none, ready_at := none
    completed_at := none, cancelled_at := none, actual_prep_time := none }

/-- Embeds apps/orders/views.py place_order (POST branch): before the
order is saved the handler assigns order.status = Order.STATUS_PENDING,
but the Order model declares no STATUS_PENDING attribute (it has only
STATUS_CHOICES), so the AttributeError kills the request there — and the
checkout ModelForm already names fields (full_name, email, phone_number,
office_number) the Order model does not declare, which fails even
earlier. For every input nothing is persisted, no menu row is read or
written (neither is_available nor current_stock is ever consulted, and
MenuItem.update_stock is never called), and the caller receives a server
error that names no menu item. -/
def place_order (menu : List (Nat × MenuItem)) (lines : List (Nat × Int)) (now : Nat) :
    PlaceOrderResult :=
  { order := none, menu := menu, error := some place_order_crash }

/-- A wallet-ledger operation: one call to add_to_wallet or
deduct_from_wallet. -/
inductive WalletOp where
  | credit (amount : Rat)
  | debit (amount : Rat)
deriving DecidableEq

/-- The amount an operation carries. -/
def WalletOp.amount : WalletOp → Rat
  | .credit a => a
  | .debit a => a

/-- Apply one wallet operation to a user. -/
def applyOp (u : User) : WalletOp → User
  | .credit a => u.add_to_wallet a
  | .debit a => (u.deduct_from_wallet a).1

/-- Apply a sequence of wallet operations left to right. -/
def applyOps (u : User) (ops : List WalletOp) : User :=
  ops.foldl applyOp u

/-- Folding addition of a mapped value equals the sum of the mapped list. -/
theorem foldl_add_map {α : Type} (f : α → Rat) (l : List α) (acc : Rat) :
    l.foldl (fun a x => a + f x) acc = acc + (l.map f).sum := by
  induction l generalizing acc with
  | nil => simp
  | cons x xs ih => simp [List.foldl_cons, ih, add_assoc]

/-- Appending one row adds its delta to the ledger sum. -/
theorem ledgerSum_append (txs : List WalletTx) (tx : WalletTx) :
    ledgerSum (txs ++ [tx]) = ledgerSum txs + tx.delta := by
  simp [ledgerSum, foldl_add_map]

/-- The sufficient-balance run of process_wallet_payment: balance debited,
payment completed, one debit row with matching snapshots appended. -/
theorem pwp_spec_sufficient (p : Payment) (u : User) (txs : List WalletTx) (now : Nat)
    (h : p.amount ≤ u.wallet_balance) :
    process_wallet_payment p u txs now =
      { payment := p.mark_as_completed now
        user := ⟨u.wallet_balance - p.amount⟩
        txs := txs ++ [{ transaction_type := "debit", source := "order_payment"
                         amount := p.amount, balance_before := u.wallet_balance
                         balance_after := u.wallet_balance - p.amount }]
        success := true
        message := "Payment completed successfully" } := by
  simp [process_wallet_payment, User.has_sufficient_balance, User.deduct_from_wallet, h]

/-- The insufficient-balance run of process_wallet_payment: payment marked
failed, balance and ledger untouched. -/
theorem pwp_spec_insufficient (p : Payment) (u : User) (txs : List WalletTx) (now : Nat)
    (h : ¬ p.amount ≤ u.wallet_balance) :
    process_wallet_payment p u txs now =
      { payment := p.mark_as_failed (some "Insufficient wallet balance")
        user := u, txs := txs, success := false
        message := "Insufficient wallet balance" } := by
  simp [process_wallet_payment, User.has_sufficient_balance, h]

/-- The status notification of a confirmed order always raises: confirmed
is in the message table and Notification has no user field. -/
theorem confirmed_notification_raises :
    create_status_notification "confirmed"
      = Except.error "TypeError: user is an invalid keyword argument for Notification" := by
  simp [create_status_notification]

/-- An order whose status is already terminal, used to exercise
update_status on a pair outside the spec's transition table. -/
def completedOrder : Order :=
  { pendingOrder with status := "completed" }

/-- Claim C2 (counterexample): the pair (completed, pending) is not in the
spec section 4.3 transition table, yet Order.update_status applies it: the
status of a completed order becomes pending instead of being rejected and
left unchanged. -/
theorem update_status_ignores_transition_table :
    specAllowedTransition "completed" "pending" = false ∧
    completedOrder.status = "completed" ∧
    (completedOrder.update_status "pending" 3).status = "pending" := by
  refine ⟨rfl, rfl, rfl⟩

/-- Claim C2 (amended): Order.update_status validates nothing: for every
requested transition, from any current status, the order's status is set
to the requested value; no (from, to) pair is rejected. Timestamps are
stamped only for the recognized pairs. -/
theorem update_status_always_applies (o : Order) (s : String) (now : Nat) :
    (o.update_status s now).status = s := by
  obtain ⟨os, sub, tax, disc, tot, ca, pa, ra, coa, cna, apt⟩ := o
  unfold Order.update_status
  dsimp only
  split_ifs <;> first
    | rfl
    | (cases pa <;> rfl)

/-- Claim C6: after Order.calculate_totals, total_amount equals
subtotal + tax_amount - discount_amount and subtotal is the sum of
quantity * unit_price over the order's live items. The Order model has no
service-fee column, so the spec's serviceFee term is identically zero
here; tax_amount is recomputed to zero by the same call. Any OrderItem
change triggers this recomputation (OrderItem.save calls
order.calculate_totals on the new live item list), which this statement
covers by quantifying over the item list. -/
theorem order_totals_invariant (o : Order) (items : List OrderItem) :
    (o.calculate_totals items).total_amount
      = (o.calculate_totals items).subtotal + (o.calculate_totals items).tax_amount
        - (o.calculate_totals items).discount_amount ∧
    (o.calculate_totals items).subtotal
      = (items.map (fun it => (it.quantity : Rat) * it.unit_price)).sum := by
  constructor
  · simp [Order.calculate_totals]
  · simp [Order.calculate_totals, foldl_add_map]

/-- Claim C8 (counterexample): an OrderItem whose price snapshot is zero
(a zero-priced menu item at creation time) has its unit_price re-read from
the live display price on a later save: after the menu price rises to 500
the stored snapshot becomes 500, so unit_price is not immutable after
creation. The source guard is `if not self.unit_price`, which treats a
zero snapshot as unset. -/
theorem order_item_price_resnapshotted :
    (OrderItem.save { quantity := 2, unit_price := 0, total_price := 0 } 0).unit_price = 0 ∧
    (OrderItem.save
      (OrderItem.save { quantity := 2, unit_price := 0, total_price := 0 } 0) 500).unit_price
      = 500 := by
  refine ⟨by decide, by decide⟩

/-- Claim C8 (amended): a nonzero unit-price snapshot never changes: for
any later save, whatever the live menu price is, unit_price keeps its
creation-time value; only a falsy (zero or unset) snapshot is re-read from
the live display price. -/
theorem order_item_snapshot_stable (it : OrderItem) (live : Rat)
    (h : it.unit_price ≠ 0) :
    (OrderItem.save it live).unit_price = it.unit_price := by
  simp [OrderItem.save, h]

/-- Witness for order_item_snapshot_stable at a concrete item. -/
theorem order_item_snapshot_stable_witness :
    ({ quantity := 1, unit_price := 300, total_price := 300 } : OrderItem).unit_price ≠ 0 ∧
    (OrderItem.save { quantity := 1, unit_price := 300, total_price := 300 } 999).unit_price
      = ({ quantity := 1, unit_price := 300, total_price := 300 } : OrderItem).unit_price :=
  ⟨by decide, order_item_snapshot_stable _ 999 (by decide)⟩

/-- Claim C9: for the mobile-money methods, calculate_net_amount stores as
transaction_fee the provider percentage of the amount clamped to the
provider's bounds — 1 percent into [100, 500] for MTN, 0.5 percent into
[50, 300] for Orange — sets net_amount to amount minus that fee, and
returns the net amount. -/
theorem calculate_net_amount_provider_fees (p : Payment) :
    (p.payment_method = "mtn_momo" →
      (p.calculate_net_amount).1.transaction_fee = min 500 (max 100 (p.amount / 100)) ∧
      (p.calculate_net_amount).1.net_amount
        = p.amount - min 500 (max 100 (p.amount / 100)) ∧
      (p.calculate_net_amount).2 = p.amount - min 500 (max 100 (p.amount / 100))) ∧
    (p.payment_method = "orange_money" →
      (p.calculate_net_amount).1.transaction_fee = min 300 (max 50 (p.amount / 200)) ∧
      (p.calculate_net_amount).1.net_amount
        = p.amount - min 300 (max 50 (p.amount / 200)) ∧
      (p.calculate_net_amount).2 = p.amount - min 300 (max 50 (p.amount / 200))) := by
  constructor
  · intro h
    have hfee : max 100 (min 500 (p.amount * (100 : Rat)⁻¹))
        = min 500 (max 100 (p.amount / 100)) := by
      rw [show p.amount * (100 : Rat)⁻¹ = p.amount / 100 by ring, max_min_distrib_left]
      norm_num
    refine ⟨?_, ?_, ?_⟩ <;> simp [Payment.calculate_net_amount, h, hfee]
  · intro h
    have hfee : max 50 (min 300 (p.amount * ((5 : Rat) / 1000)))
        = min 300 (max 50 (p.amount / 200)) := by
      rw [show p.amount * ((5 : Rat) / 1000) = p.amount / 200 by ring, max_min_distrib_left]
      norm_num
    refine ⟨?_, ?_, ?_⟩ <;> simp [Payment.calculate_net_amount, h, hfee]

/-- Witness for calculate_net_amount_provider_fees at concrete MTN and
Orange payments. -/
theorem calculate_net_amount_provider_fees_witness :
    ((mkPayment "mtn_momo" "order_payment" 20000).calculate_net_amount).1.transaction_fee
      = min 500 (max 100 ((mkPayment "mtn_momo" "order_payment" 20000).amount / 100)) ∧
    ((mkPayment "orange_money" "order_payment" 2000).calculate_net_amount).1.transaction_fee
      = min 300 (max 50 ((mkPayment "orange_money" "order_payment" 2000).amount / 200)) :=
  ⟨((calculate_net_amount_provider_fees (mkPayment "mtn_momo" "order_payment" 20000)).1 rfl).1,
   ((calculate_net_amount_provider_fees (mkPayment "orange_money" "order_payment" 2000)).2 rfl).1⟩

/-- Claim C10: for every payment method other than the two mobile-money
providers (wallet, cash), calculate_net_amount sets transaction_fee to
zero and net_amount to the full amount, and returns the full amount. -/
theorem calculate_net_amount_default (p : Payment)
    (h1 : p.payment_method ≠ "mtn_momo") (h2 : p.payment_method ≠ "orange_money") :
    (p.calculate_net_amount).1.transaction_fee = 0 ∧
    (p.calculate_net_amount).1.net_amount = p.amount ∧
    (p.calculate_net_amount).2 = p.amount := by
  refine ⟨?_, ?_, ?_⟩ <;> simp [Payment.calculate_net_amount, h1, h2]

/-- Witness for calculate_net_amount_default at a wallet payment. -/
theorem calculate_net_amount_default_witness :
    (mkPayment "wallet" "order_payment" 750).payment_method ≠ "mtn_momo" ∧
    ((mkPayment "wallet" "order_payment" 750).calculate_net_amount).1.transaction_fee = 0 :=
  ⟨by decide,
   (calculate_net_amount_default (mkPayment "wallet" "order_payment" 750)
     (by decide) (by decide)).1⟩

/-- Claim C7: wallet debit requires balance >= amount: an insufficient
balance makes deduct_from_wallet answer False with the balance untouched,
and makes process_wallet_payment fail with the balance and the
WalletTransaction ledger unchanged (only the Payment row is marked
failed); and starting from a non-negative balance, no sequence of
add_to_wallet / deduct_from_wallet calls with non-negative amounts ever
drives the balance negative. -/
theorem wallet_debit_guard_and_nonnegative :
    (∀ (u : User) (amt : Rat), u.wallet_balance < amt →
      u.deduct_from_wallet amt = (u, false)) ∧
    (∀ (p : Payment) (u : User) (txs : List WalletTx) (now : Nat),
      u.wallet_balance < p.amount →
      (process_wallet_payment p u txs now).success = false ∧
      (process_wallet_payment p u txs now).user = u ∧
      (process_wallet_payment p u txs now).txs = txs) ∧
    (∀ (u : User) (ops : List WalletOp), 0 ≤ u.wallet_balance →
      (∀ op ∈ ops, 0 ≤ op.amount) →
      0 ≤ (applyOps u ops).wallet_balance) := by
  refine ⟨?_, ?_, ?_⟩
  · intro u amt h
    unfold User.deduct_from_wallet
    rw [if_neg (not_le.mpr h)]
  · intro p u txs now h
    have hb : u.has_sufficient_balance p.amount = false := by
      simp [User.has_sufficient_balance, not_le.mpr h]
    refine ⟨?_, ?_, ?_⟩ <;> simp [process_wallet_payment, hb]
  · intro u ops h0 hall
    induction ops generalizing u with
    | nil => simpa [applyOps] using h0
    | cons op rest ih =>
      have hop : 0 ≤ op.amount := hall op (List.mem_cons_self _ _)
      have h1 : 0 ≤ (applyOp u op).wallet_balance := by
        cases op with
        | credit a =>
          simpa [applyOp, User.add_to_wallet] using add_nonneg h0 hop
        | debit a =>
          simp only [applyOp, User.deduct_from_wallet]
          split_ifs with hle
          · simpa using sub_nonneg.mpr hle
          · exact h0
      have hstep : applyOps u (op :: rest) = applyOps (applyOp u op) rest := by
        simp [applyOps]
      rw [hstep]
      exact ih _ h1 (fun x hx => hall x (List.mem_cons_of_mem _ hx))

/-- Witness for wallet_debit_guard_and_nonnegative: a balance of 50
rejects a debit of 100 untouched, the wallet payment of a 100 XAF order
fails at balance 50 leaving the ledger empty, and a credit-then-debit
sequence from balance 0 stays non-negative. -/
theorem wallet_debit_guard_and_nonnegative_witness :
    (⟨50⟩ : User).deduct_from_wallet 100 = (⟨50⟩, false) ∧
    (process_wallet_payment (mkPayment "wallet" "order_payment" 100) ⟨50⟩ [] 0).txs = [] ∧
    0 ≤ (applyOps ⟨0⟩ [WalletOp.credit 5, WalletOp.debit 3]).wallet_balance :=
  ⟨wallet_debit_guard_and_nonnegative.1 ⟨50⟩ 100 (by decide),
   (wallet_debit_guard_and_nonnegative.2.1 (mkPayment "wallet" "order_payment" 100)
     ⟨50⟩ [] 0 (by decide)).2.2,
   wallet_debit_guard_and_nonnegative.2.2 ⟨0⟩ [WalletOp.credit 5, WalletOp.debit 3]
     (by decide) (by decide)⟩

/-- Claim C1: every balance-changing operation preserves row consistency
and the reconciliation invariant. The wallet order payment appends a
debit row whose snapshots match and debits the cached balance in the same
unit; top-up completion appends a matching credit row while crediting the
balance (the Notification call that follows raises, but only after both
are committed); and the simulated top-up view writes nothing at all (its
create raises on the employee keyword and the handler reports an invalid
amount), so it trivially preserves the invariant. No refund code exists. -/
theorem wallet_ops_preserve_reconciliation :
    (∀ (p : Payment) (u : User) (txs : List WalletTx) (now : Nat),
      (∀ tx ∈ txs, rowConsistent tx) → reconciled u txs →
      (∀ tx ∈ (process_wallet_payment p u txs now).txs, rowConsistent tx) ∧
      reconciled (process_wallet_payment p u txs now).user
        (process_wallet_payment p u txs now).txs) ∧
    (∀ (p : Payment) (u : User) (txs : List WalletTx),
      (∀ tx ∈ txs, rowConsistent tx) → reconciled u txs →
      (∀ tx ∈ (complete_wallet_topup p u txs).2, rowConsistent tx) ∧
      reconciled (complete_wallet_topup p u txs).1 (complete_wallet_topup p u txs).2) ∧
    (∀ (amount : Rat) (u : User) (txs : List WalletTx),
      (orders_process_topup amount u txs).user = u ∧
      (orders_process_topup amount u txs).txs = txs) := by
  refine ⟨?_, ?_, ?_⟩
  · intro p u txs now hrows hrec
    by_cases h : p.amount ≤ u.wallet_balance
    · rw [pwp_spec_sufficient p u txs now h]
      constructor
      · intro tx htx
        rcases List.mem_append.mp htx with hold | hnew
        · exact hrows tx hold
        · rw [List.mem_singleton.mp hnew]
          constructor
          · intro hc; simp at hc
          · intro _; rfl
      · show u.wallet_balance - p.amount = _
        rw [ledgerSum_append, ← hrec]
        simp [WalletTx.delta]
        ring
    · rw [pwp_spec_insufficient p u txs now h]
      exact ⟨hrows, hrec⟩
  · intro p u txs hrows hrec
    constructor
    · intro tx htx
      rcases List.mem_append.mp htx with hold | hnew
      · exact hrows tx hold
      · rw [List.mem_singleton.mp hnew]
        constructor
        · intro _; rfl
        · intro hc; simp at hc
    · show u.wallet_balance + p.amount = _
      rw [show (complete_wallet_topup p u txs).2
            = txs ++ [{ transaction_type := "credit", source := "topup", amount := p.amount
                        balance_before := u.wallet_balance
                        balance_after := u.wallet_balance + p.amount }] from rfl]
      rw [ledgerSum_append, ← hrec]
      simp [WalletTx.delta]
  · intro amount u txs
    unfold orders_process_topup
    split_ifs <;> exact ⟨rfl, rfl⟩

/-- Witness for wallet_ops_preserve_reconciliation at a reconciled user
with an empty ledger. -/
theorem wallet_ops_preserve_reconciliation_witness :
    reconciled (process_wallet_payment (mkPayment "wallet" "order_payment" 200) ⟨0⟩ [] 0).user
      (process_wallet_payment (mkPayment "wallet" "order_payment" 200) ⟨0⟩ [] 0).txs ∧
    reconciled (complete_wallet_topup (mkPayment "mtn_momo" "order_payment" 300) ⟨0⟩ []).1
      (complete_wallet_topup (mkPayment "mtn_momo" "order_payment" 300) ⟨0⟩ []).2 ∧
    (orders_process_topup 1000 ⟨0⟩ []).txs = [] :=
  ⟨(wallet_ops_preserve_reconciliation.1 (mkPayment "wallet" "order_payment" 200) ⟨0⟩ [] 0
      (by simp) rfl).2,
   (wallet_ops_preserve_reconciliation.2.1 (mkPayment "mtn_momo" "order_payment" 300) ⟨0⟩ []
      (by simp) rfl).2,
   (wallet_ops_preserve_reconciliation.2.2 1000 ⟨0⟩ []).2⟩

/-- A mobile-money order payment as the provider flow leaves it while
awaiting settlement: processing, with a provider reference stored. -/
def processingMtnPayment : Payment :=
  { mkPayment "mtn_momo" "order_payment" 1000 with
    status := "processing", transaction_id := "ref-1" }

/-- Claim C4: reconciling twice with the same terminal provider status is
a no-op the second time, and an already-terminal Payment is never touched.
Webhook deliveries change nothing at all — the handler crashes logging the
webhook row and answers 500 before the Payment lookup — so duplicate
deliveries create no WalletTransaction and no transition. Polling
reconciliation answers directly on a completed or failed Payment without
touching it; on a processing MTN payment a FAILED provider status causes
exactly one transition (processing to failed) and the duplicate call is a
no-op on the then-terminal payment, while a SUCCESSFUL provider status
changes nothing (the branch dies reading payment.payment_type before
completing anything): over any two calls, at most one Payment transition
and no WalletTransaction occur. -/
theorem reconcile_terminal_idempotent :
    (∀ (p : Payment) (s : String) (u : User) (txs : List WalletTx),
      mtn_webhook p s u txs = ({ payment := p, user := u, txs := txs }, 500)) ∧
    (∀ (p : Payment) (ps : String) (u : User) (txs : List WalletTx),
      p.status = "completed" ∨ p.status = "failed" →
      payment_verification p ps u txs
        = { payment := p, user := u, txs := txs, answer := p.status }) ∧
    (∀ (p : Payment) (u : User) (txs : List WalletTx),
      p.status = "processing" → p.payment_method = "mtn_momo" →
      (payment_verification p "FAILED" u txs).payment.status = "failed" ∧
      (payment_verification p "FAILED" u txs).user = u ∧
      (payment_verification p "FAILED" u txs).txs = txs ∧
      payment_verification (payment_verification p "FAILED" u txs).payment "FAILED"
          (payment_verification p "FAILED" u txs).user
          (payment_verification p "FAILED" u txs).txs
        = { payment := (payment_verification p "FAILED" u txs).payment
            user := (payment_verification p "FAILED" u txs).user
            txs := (payment_verification p "FAILED" u txs).txs
            answer := "failed" }) ∧
    (∀ (p : Payment) (u : User) (txs : List WalletTx),
      p.status = "processing" → p.payment_method = "mtn_momo" →
      payment_verification p "SUCCESSFUL" u txs
        = { payment := p, user := u, txs := txs, answer := "processing" }) := by
  refine ⟨fun p s u txs => rfl, ?_, ?_, ?_⟩
  · intro p ps u txs h
    rcases h with h | h <;> simp [payment_verification, h]
  · intro p u txs h1 h2
    have hr1 : payment_verification p "FAILED" u txs
        = { payment := p.mark_as_failed (some "Payment failed by provider")
            user := u, txs := txs, answer := "failed" } := by
      simp [payment_verification, verify_mtn_payment, h1, h2]
    rw [hr1]
    refine ⟨rfl, rfl, rfl, ?_⟩
    simp [payment_verification, Payment.mark_as_failed]
  · intro p u txs h1 h2
    simp [payment_verification, verify_mtn_payment, h1, h2]

/-- Witness for reconcile_terminal_idempotent: a completed payment is
untouched by verification, and a processing MTN payment is failed exactly
once by a FAILED provider status. -/
theorem reconcile_terminal_idempotent_witness :
    payment_verification { mkPayment "mtn_momo" "order_payment" 1000 with status := "completed" }
        "SUCCESSFUL" ⟨0⟩ []
      = { payment := { mkPayment "mtn_momo" "order_payment" 1000 with status := "completed" }
          user := ⟨0⟩, txs := [], answer := "completed" } ∧
    (payment_verification processingMtnPayment "FAILED" ⟨0⟩ []).payment.status = "failed" ∧
    payment_verification processingMtnPayment "SUCCESSFUL" ⟨0⟩ []
      = { payment := processingMtnPayment, user := ⟨0⟩, txs := [], answer := "processing" } :=
  ⟨reconcile_terminal_idempotent.2.1
      { mkPayment "mtn_momo" "order_payment" 1000 with status := "completed" }
      "SUCCESSFUL" ⟨0⟩ [] (Or.inl rfl),
   (reconcile_terminal_idempotent.2.2.1 processingMtnPayment ⟨0⟩ [] rfl rfl).1,
   reconcile_terminal_idempotent.2.2.2 processingMtnPayment ⟨0⟩ [] rfl rfl⟩

/-- Claim C3 (amended): payment initiation never reports success — ok is
false for every input, because the would-be success path raises in the
order-status notification inside the atomic block and everything rolls
back with a 500. It is gated on the order being in `pending` status (not
a validated state — the model has no validated status) and on no existing
Payment of the order having status pending or completed; a processing
payment does not block. In both rejection cases the whole state is
untouched. Past the gates with the wallet method: a sufficient balance
leads to the notification TypeError and total rollback (state unchanged,
error 'Payment processing failed'); an insufficient balance persists
exactly one new failed Payment row with the 'Insufficient wallet balance'
error while balance and ledger stay unchanged. -/
theorem process_payment_initiation_rules (st : PPState) (method : String) (acc : Bool)
    (now : Nat) :
    (process_payment st method acc now).ok = false ∧
    (st.order.status ≠ "pending" →
      (process_payment st method acc now).error = some "Order cannot be paid" ∧
      (process_payment st method acc now).st = st) ∧
    (st.order.status = "pending" →
      st.payments.any (fun p => p.status == "pending" || p.status == "completed") = true →
      (process_payment st method acc now).error = some "Payment already processed" ∧
      (process_payment st method acc now).st = st) ∧
    (st.order.status = "pending" →
      st.payments.any (fun p => p.status == "pending" || p.status == "completed") = false →
      method = "wallet" →
      st.order.total_amount ≤ st.user.wallet_balance →
      (process_payment st method acc now).st = st ∧
      (process_payment st method acc now).error = some "Payment processing failed") ∧
    (st.order.status = "pending" →
      st.payments.any (fun p => p.status == "pending" || p.status == "completed") = false →
      method = "wallet" →
      ¬ st.order.total_amount ≤ st.user.wallet_balance →
      (process_payment st method acc now).st.payments.length = st.payments.length + 1 ∧
      (process_payment st method acc now).st.user = st.user ∧
      (process_payment st method acc now).st.txs = st.txs ∧
      (process_payment st method acc now).error = some "Insufficient wallet balance") := by
  refine ⟨?_, ?_, ?_, ?_, ?_⟩
  · unfold process_payment
    split_ifs <;> simp [confirmed_notification_raises] <;> split_ifs <;> simp
  · intro h
    unfold process_payment
    rw [if_pos h]
    exact ⟨rfl, rfl⟩
  · intro h1 h2
    unfold process_payment
    rw [if_neg (by simp [h1]), if_pos (by simp [h2])]
    exact ⟨rfl, rfl⟩
  · intro h1 h2 h3 h4
    subst h3
    unfold process_payment
    rw [if_neg (by simp [h1]), if_neg (by simp [h2]), if_pos rfl,
      pwp_spec_sufficient _ st.user st.txs now h4]
    simp [confirmed_notification_raises]
  · intro h1 h2 h3 h4
    subst h3
    unfold process_payment
    rw [if_neg (by simp [h1]), if_neg (by simp [h2]), if_pos rfl,
      pwp_spec_insufficient _ st.user st.txs now h4]
    simp

/-- A Payment row stuck in processing status, attached to the order while
a mobile-money settlement is pending. -/
def processingPayment : Payment :=
  { mkPayment "wallet" "order_payment" 2000 with status := "processing" }

/-- A pending 2000 XAF order of a user holding only 500 XAF, with one
payment already in processing status attached to the order. -/
def dupPaymentState : PPState :=
  { order := { pendingOrder with total_amount := 2000 }
    user := ⟨500⟩
    payments := [processingPayment]
    txs := [] }

/-- Claim C3 (counterexample): with one Payment already in processing
status for the order, process_payment does not reject on that ground: it
proceeds, creates a new Payment row, and — the balance being short —
marks it failed and answers the dispatch error; the row persists because
a plain error return commits the atomic block. So despite an existing
processing payment a second Payment row is created, contradicting the
claimed rejection with no new row (and the claimed VALIDATED precondition
does not exist: the handler admits only pending orders). -/
theorem process_payment_processing_duplicate_row :
    dupPaymentState.order.status = "pending" ∧
    processingPayment.status = "processing" ∧
    (process_payment dupPaymentState "wallet" true 0).error
      = some "Insufficient wallet balance" ∧
    (process_payment dupPaymentState "wallet" true 0).st.payments.length = 2 := by
  refine ⟨rfl, rfl, ?_, ?_⟩ <;>
    norm_num [process_payment, dupPaymentState, processingPayment, mkPayment, pendingOrder,
      process_wallet_payment, User.has_sufficient_balance, Payment.mark_as_failed] <;>
    decide

/-- Claim C5 (amended): place_order validates nothing and reserves
nothing, and as written it cannot place any order at all: the handler
dies on Order.STATUS_PENDING before the order is saved, so for every
input nothing is persisted, the menu — every current_stock included — is
returned untouched, and the caller receives the same generic server
error, which names no menu item. -/
theorem place_order_never_persists (menu : List (Nat × MenuItem))
    (lines : List (Nat × Int)) (now : Nat) :
    (place_order menu lines now).menu = menu ∧
    (place_order menu lines now).order = none ∧
    (place_order menu lines now).error = some place_order_crash :=
  ⟨rfl, rfl, rfl⟩

/-- A menu item that is flagged unavailable and has zero stock. -/
def unavailableItem : MenuItem :=
  { name := "Pizza", price := 500, special_price := none, is_special := false
    special_until := none, is_available := false, current_stock := 0 }

/-- A menu item that is available with stock on hand. -/
def availableItem : MenuItem :=
  { name := "Ndole", price := 1500, special_price := none, is_special := false
    special_until := none, is_available := true, current_stock := 10 }

/-- Claim C5 (counterexample): placing a valid order for three units of an
available item with ten in stock decrements nothing and persists nothing —
the claim requires the stock to be checked and decremented by the ordered
quantity — and the error for an unavailable, zero-stock item is the
identical generic message: availability is never consulted and no failing
item is ever named. -/
theorem place_order_stock_never_reserved :
    availableItem.is_available = true ∧
    availableItem.current_stock = 10 ∧
    (place_order [(1, availableItem)] [(1, 3)] 0).menu = [(1, availableItem)] ∧
    (place_order [(1, availableItem)] [(1, 3)] 0).order = none ∧
    (place_order [(1, availableItem)] [(1, 3)] 0).error
      = (place_order [(1, unavailableItem)] [(1, 3)] 0).error :=
  ⟨rfl, rfl, rfl, rfl, rfl⟩

/-- Witness for process_payment_initiation_rules: a completed order is
rejected untouched; a pending-payment duplicate is rejected untouched; a
sufficient wallet balance ends in the rolled-back 500; the insufficient
balance of the concrete state persists exactly one new failed row. -/
theorem process_payment_initiation_rules_witness :
    (process_payment { dupPaymentState with order := completedOrder } "wallet" true 0).error
      = some "Order cannot be paid" ∧
    (process_payment
        { dupPaymentState with payments := [mkPayment "wallet" "order_payment" 2000] }
        "wallet" true 0).error = some "Payment already processed" ∧
    (process_payment { dupPaymentState with user := ⟨5000⟩ } "wallet" true 0).st
      = { dupPaymentState with user := ⟨5000⟩ } ∧
    (process_payment dupPaymentState "wallet" true 0).st.payments.length
      = dupPaymentState.payments.length + 1 :=
  ⟨((process_payment_initiation_rules { dupPaymentState with order := completedOrder }
      "wallet" true 0).2.1 (by decide)).1,
   ((process_payment_initiation_rules
      { dupPaymentState with payments := [mkPayment "wallet" "order_payment" 2000] }
      "wallet" true 0).2.2.1 rfl (by decide)).1,
   ((process_payment_initiation_rules { dupPaymentState with user := ⟨5000⟩ }
      "wallet" true 0).2.2.2.1 rfl (by decide) rfl (by decide)).1,
   ((process_payment_initiation_rules dupPaymentState
      "wallet" true 0).2.2.2.2 rfl (by decide) rfl (by decide)).1⟩

end Canteen
